import Mathlib

/-!
Shallow embedding of the check-parser application (`src/streamlit_app.py`).

The embedding models the extraction-and-aggregation pipeline:
  * JSON values and a parser mirroring Python's `json.loads` on decimal
    literals (no `\u` surrogate pairing, no `Infinity`/`NaN` extensions,
    which the source never relies on),
  * the response post-processing of `parse_check` (lines 150-164): strip,
    code-fence removal, the `re.search(r'\{[^{}]*\}', ...)` extraction,
    `json.loads`, and the string-amount coercion,
  * Python's `float()` on finite decimal literals (`pyFloat?`),
  * the module-level batch loop (lines 252-261) that appends successes to
    `checks` and reports failures with their 1-based page index,
  * `get_images_from_uploads` (lines 114-127) where a PDF rasterization
    failure propagates as an exception,
  * `generate_csv` (lines 225-239) and the cell values of `generate_xlsx`
    (lines 167-222; styling, column widths, filters and freezing are
    presentation-only and not modelled).

Numbers are modelled as rationals: every concrete value exercised below is
exactly representable as a double, and the arithmetic performed by the code
(sum, 2-decimal formatting) agrees with the rational semantics there.
-/

namespace CheckParser

/-- JSON values as produced by `json.loads`. -/
inductive JVal where
  | null
  | bool (b : Bool)
  | num (q : ℚ)
  | str (s : String)
  | arr (elems : List JVal)
  | obj (fields : List (String × JVal))

/-- A parsed JSON object, i.e. a Python dict in insertion order. -/
abbrev Obj := List (String × JVal)

/-- True exactly on `JVal.num`. -/
def JVal.isNum : JVal → Bool
  | .num _ => true
  | _ => false

/-- Python dict lookup `d.get(k)`: the value stored at `k`, if any. -/
def lookupField (fields : Obj) (k : String) : Option JVal :=
  (fields.find? (fun p => p.1 == k)).map (fun p => p.2)

/-- Python dict assignment `d[k] = v` for a key already present. -/
def setField (fields : Obj) (k : String) (v : JVal) : Obj :=
  fields.map (fun p => if p.1 == k then (k, v) else p)

/-- Building a dict from parsed key/value pairs: a repeated key keeps its
first position but the last value, as `dict` does in Python. -/
def insertField (fields : Obj) (k : String) (v : JVal) : Obj :=
  if fields.any (fun p => p.1 == k) then
    fields.map (fun p => if p.1 == k then (k, v) else p)
  else fields ++ [(k, v)]

/-- Fold parsed object members into dict form. -/
def dedupFields (ps : Obj) : Obj :=
  ps.foldl (fun acc kv => insertField acc kv.1 kv.2) []

/-- JSON whitespace accepted between tokens by `json.loads`. -/
def isJsonWs (c : Char) : Bool :=
  c == ' ' || c == '\t' || c == '\n' || c == '\r'

/-- Skip JSON whitespace. -/
def skipWs (cs : List Char) : List Char := cs.dropWhile isJsonWs

/-- Value of a hexadecimal digit. -/
def hexVal? (c : Char) : Option Nat :=
  if c.isDigit then some (c.toNat - 48)
  else if 'a' ≤ c ∧ c ≤ 'f' then some (c.toNat - 87)
  else if 'A' ≤ c ∧ c ≤ 'F' then some (c.toNat - 55)
  else none

/-- Body of a JSON string after the opening quote, with the escapes
`json.loads` accepts in strict mode (raw control characters rejected). -/
def parseStringAux (acc : List Char) : List Char → Option (String × List Char)
  | [] => none
  | c :: rest =>
    if c == '"' then some (String.mk acc.reverse, rest)
    else if c == '\\' then
      match rest with
      | [] => none
      | e :: rest2 =>
        if e == '"' then parseStringAux ('"' :: acc) rest2
        else if e == '\\' then parseStringAux ('\\' :: acc) rest2
        else if e == '/' then parseStringAux ('/' :: acc) rest2
        else if e == 'b' then parseStringAux ('\x08' :: acc) rest2
        else if e == 'f' then parseStringAux ('\x0c' :: acc) rest2
        else if e == 'n' then parseStringAux ('\n' :: acc) rest2
        else if e == 'r' then parseStringAux ('\r' :: acc) rest2
        else if e == 't' then parseStringAux ('\t' :: acc) rest2
        else if e == 'u' then
          match rest2 with
          | h1 :: h2 :: h3 :: h4 :: rest3 =>
            match hexVal? h1, hexVal? h2, hexVal? h3, hexVal? h4 with
            | some a, some b, some c2, some d =>
              parseStringAux (Char.ofNat (((a * 16 + b) * 16 + c2) * 16 + d) :: acc) rest3
            | _, _, _, _ => none
          | _ => none
        else none
    else if c.toNat < 32 then none
    else parseStringAux (c :: acc) rest

/-- Numeric value of a digit string. -/
def digitsToNat (ds : List Char) : Nat :=
  ds.foldl (fun a c => a * 10 + (c.toNat - 48)) 0

/-- The rational `sgn * mantissa * 10^ex / 10^fracLen`, built with `mkRat`
so that it evaluates by kernel reduction. -/
def decValue (sgn : ℤ) (mantissa : Nat) (fracLen : Nat) (ex : ℤ) : ℚ :=
  if 0 ≤ ex then mkRat (sgn * (mantissa : ℤ) * (10 : ℤ) ^ ex.toNat) ((10 : ℕ) ^ fracLen)
  else mkRat (sgn * (mantissa : ℤ)) ((10 : ℕ) ^ fracLen * (10 : ℕ) ^ (-ex).toNat)

/-- Finish a JSON number after integer and fraction digits: the optional
exponent, and the rational value. -/
def parseNumExp (sgn : ℤ) (ds fs : List Char) (rest : List Char) :
    Option (JVal × List Char) :=
  match rest with
  | c :: r =>
    if c == 'e' || c == 'E' then
      let p := match r with
        | '+' :: t => ((1 : ℤ), t)
        | '-' :: t => ((-1 : ℤ), t)
        | t => ((1 : ℤ), t)
      let ed := p.2.takeWhile Char.isDigit
      let r2 := p.2.dropWhile Char.isDigit
      if ed.isEmpty then none
      else
        some (JVal.num (decValue sgn (digitsToNat (ds ++ fs)) fs.length
          (p.1 * (digitsToNat ed : ℤ))), r2)
    else some (JVal.num (decValue sgn (digitsToNat (ds ++ fs)) fs.length 0), rest)
  | [] => some (JVal.num (decValue sgn (digitsToNat (ds ++ fs)) fs.length 0), [])

/-- A JSON number literal: optional minus, integer part without leading
zeros, optional fraction, optional exponent. -/
def parseNum (cs : List Char) : Option (JVal × List Char) :=
  let p := match cs with
    | '-' :: r => ((-1 : ℤ), r)
    | r => ((1 : ℤ), r)
  let ds := p.2.takeWhile Char.isDigit
  let r1 := p.2.dropWhile Char.isDigit
  if ds.isEmpty then none
  else if ds.length > 1 && ds.head? == some '0' then none
  else
    match r1 with
    | '.' :: r2 =>
      let fs := r2.takeWhile Char.isDigit
      let r3 := r2.dropWhile Char.isDigit
      if fs.isEmpty then none else parseNumExp p.1 ds fs r3
    | _ => parseNumExp p.1 ds [] r1

mutual

/-- One JSON value, fuelled recursive descent. -/
def parseVal : Nat → List Char → Option (JVal × List Char)
  | 0, _ => none
  | fuel + 1, cs =>
    match skipWs cs with
    | 'n' :: 'u' :: 'l' :: 'l' :: rest => some (JVal.null, rest)
    | 't' :: 'r' :: 'u' :: 'e' :: rest => some (JVal.bool true, rest)
    | 'f' :: 'a' :: 'l' :: 's' :: 'e' :: rest => some (JVal.bool false, rest)
    | '"' :: rest => (parseStringAux [] rest).map (fun p => (JVal.str p.1, p.2))
    | '[' :: rest => (parseElems fuel (skipWs rest)).map (fun p => (JVal.arr p.1, p.2))
    | '{' :: rest => (parseFields fuel (skipWs rest)).map (fun p => (JVal.obj (dedupFields p.1), p.2))
    | cs2 => parseNum cs2

/-- Array elements after `[` (whitespace already skipped). -/
def parseElems : Nat → List Char → Option (List JVal × List Char)
  | 0, _ => none
  | fuel + 1, cs =>
    match cs with
    | ']' :: rest => some ([], rest)
    | _ =>
      match parseVal fuel cs with
      | none => none
      | some (v, r) =>
        match skipWs r with
        | ',' :: r2 =>
          (match skipWs r2 with
            | ']' :: _ => none
            | cs3 =>
              match parseElems fuel cs3 with
              | some (vs, r3) => some (v :: vs, r3)
              | none => none)
        | ']' :: r2 => some ([v], r2)
        | _ => none

/-- Object members after `\x7b` (whitespace already skipped). -/
def parseFields : Nat → List Char → Option (List (String × JVal) × List Char)
  | 0, _ => none
  | fuel + 1, cs =>
    match cs with
    | '}' :: rest => some ([], rest)
    | '"' :: rest =>
      match parseStringAux [] rest with
      | none => none
      | some (k, r) =>
        match skipWs r with
        | ':' :: r2 =>
          (match parseVal fuel r2 with
            | none => none
            | some (v, r3) =>
              match skipWs r3 with
              | ',' :: r4 =>
                (match skipWs r4 with
                  | '"' :: _ =>
                    (match parseFields fuel (skipWs r4) with
                      | some (ps, r5) => some ((k, v) :: ps, r5)
                      | none => none)
                  | _ => none)
              | '}' :: r4 => some ([(k, v)], r4)
              | _ => none)
        | _ => none
    | _ => none

end

/-- `json.loads` on a character list: one value, then only trailing
whitespace. -/
def jsonLoadsL (cs : List Char) : Option JVal :=
  match parseVal (2 * cs.length + 2) cs with
  | some (v, rest) => if (skipWs rest).isEmpty then some v else none
  | none => none

/-- `json.loads` on a string. -/
def jsonLoads (s : String) : Option JVal := jsonLoadsL s.toList

/-! ## String post-processing of `parse_check` (lines 150-159) -/

/-- Whitespace stripped by Python's `str.strip()`. -/
def isPyWs (c : Char) : Bool :=
  c == ' ' || c == '\t' || c == '\n' || c == '\r' || c == '\x0b' || c == '\x0c'

/-- Python `str.strip()` on a character list. -/
def stripList (cs : List Char) : List Char :=
  ((cs.dropWhile isPyWs).reverse.dropWhile isPyWs).reverse

/-- Python `str.strip()`. -/
def pyStrip (s : String) : String := String.mk (stripList s.toList)

/-- The backtick character. -/
def fc : Char := Char.ofNat 96

/-- Python `text.startswith` applied to three backticks (line 152). -/
def startsFence (cs : List Char) : Bool :=
  match cs with
  | a :: b :: c :: _ => a == fc && b == fc && c == fc
  | _ => false

/-- Python `text.split(chr(10), 1)`: `none` when there is no newline, in
which case line 153's `[1]` raises `IndexError`. -/
def splitOnceNL : List Char → Option (List Char × List Char)
  | [] => none
  | '\n' :: rest => some ([], rest)
  | c :: rest => (splitOnceNL rest).map (fun p => (c :: p.1, p.2))

/-- Does the list start with three backticks at its head position? -/
def fenceHead : List Char → Bool
  | a :: b :: c :: _ => a == fc && b == fc && c == fc
  | _ => false

/-- The part before the last occurrence of three backticks, if any. -/
def beforeLastFenceAux : List Char → Option (List Char)
  | [] => none
  | c :: rest =>
    match beforeLastFenceAux rest with
    | some p => some (c :: p)
    | none => if fenceHead (c :: rest) then some [] else none

/-- Python `text.rsplit(3 backticks, 1)[0]` (line 154): the part before the
last fence, or the whole text when no fence occurs. -/
def beforeLastFence (cs : List Char) : List Char :=
  (beforeLastFenceAux cs).getD cs

/-- Lines 152-155: markdown fence cleanup. `none` models the `IndexError`
raised when the text starts with a fence but has no newline. -/
def stripFenceL (cs : List Char) : Option (List Char) :=
  if startsFence cs then
    match splitOnceNL cs with
    | none => none
    | some p => some (stripList (beforeLastFence p.2))
  else some cs

/-- The run of characters before the first brace, provided that brace is a
closing one; `none` when an opening brace or the end of input comes first. -/
def toBrace : List Char → Option (List Char)
  | [] => none
  | c :: rest =>
    if c == '{' then none
    else if c == '}' then some []
    else (toBrace rest).map (fun l => c :: l)

/-- Line 157's `re.search(r'...', text, re.DOTALL)` where the pattern is an
opening brace, any run of non-brace characters, and a closing brace: the
leftmost substring that starts with an opening brace whose next brace is a
closing one, i.e. the first brace pair with a brace-free interior. -/
def findFlat : List Char → Option (List Char)
  | [] => none
  | c :: rest =>
    if c == '{' then
      match toBrace rest with
      | some inner => some ('{' :: (inner ++ ['}']))
      | none => findFlat rest
    else findFlat rest

/-- Modelled from the spec: the first balanced brace-delimited substring of
the text, by depth counting. This is the extraction rule the specification
describes; it is compared against `findFlat`, the rule the code implements. -/
def balanceScan : Nat → List Char → List Char → Option (List Char)
  | _, _, [] => none
  | d, acc, c :: rest =>
    if c == '{' then balanceScan (d + 1) (c :: acc) rest
    else if c == '}' then
      if d ≤ 1 then some (List.reverse (c :: acc)) else balanceScan (d - 1) (c :: acc) rest
    else balanceScan d (c :: acc) rest

/-- Modelled from the spec: locate the first balanced object substring. -/
def spec_firstBalanced : List Char → Option (List Char)
  | [] => none
  | c :: rest =>
    if c == '{' then balanceScan 1 [c] rest
    else spec_firstBalanced rest

/-! ## Python `float()` and the amount coercion (lines 161-163) -/

/-- Digit-string and exponent to a rational: the value of
`sign * digits.fraction * 10^exp`. -/
def valOf (sgn : ℤ) (ip fp : List Char) (ex : ℤ) : ℚ :=
  decValue sgn (digitsToNat (ip ++ fp)) fp.length ex

/-- Optional exponent suffix of a Python float literal. -/
def finishExp (sgn : ℤ) (ip fp : List Char) : List Char → Option ℚ
  | [] => some (valOf sgn ip fp 0)
  | e :: r =>
    if e == 'e' || e == 'E' then
      let p := match r with
        | '+' :: t => ((1 : ℤ), t)
        | '-' :: t => ((-1 : ℤ), t)
        | t => ((1 : ℤ), t)
      let ed := p.2.takeWhile Char.isDigit
      let r2 := p.2.dropWhile Char.isDigit
      if ed.isEmpty || !r2.isEmpty then none
      else some (valOf sgn ip fp (p.1 * (digitsToNat ed : ℤ)))
    else none

/-- Python's built-in `float()` on finite decimal literals: surrounding
whitespace, optional sign, digits with an optional point and exponent.
(`inf`/`nan` spellings and digit-group underscores are accepted by Python
but never produced by the stripped amount strings this code handles; they
are outside the modelled grammar.) -/
def pyFloat? (s : String) : Option ℚ :=
  let cs0 := stripList s.toList
  let p := match cs0 with
    | '+' :: r => ((1 : ℤ), r)
    | '-' :: r => ((-1 : ℤ), r)
    | r => ((1 : ℤ), r)
  let ip := p.2.takeWhile Char.isDigit
  let cs1 := p.2.dropWhile Char.isDigit
  match cs1 with
  | '.' :: r =>
    let fp := r.takeWhile Char.isDigit
    let r2 := r.dropWhile Char.isDigit
    if ip.isEmpty && fp.isEmpty then none
    else finishExp p.1 ip fp r2
  | r2 =>
    if ip.isEmpty then none else finishExp p.1 ip [] r2

/-- Line 163: `s.replace(",", "").replace("$", "")`. -/
def stripCommasDollars (s : String) : String :=
  String.mk (s.toList.filter (fun c => !(c == ',' || c == '$')))

/-! ## `parse_check` (lines 130-164) -/

/-- Why a page failed. `serviceError` is the inference call itself raising;
the other constructors are the response-handling failures the specification
groups under `MalformedResponseError`. -/
inductive PageError where
  | serviceError
  | malformedFence
  | malformedJson
  | malformedNotObject
  | malformedAmount

/-- The specification's `MalformedResponseError` class: every page failure
other than a failed service call. -/
def PageError.isMalformedResponse : PageError → Bool
  | .serviceError => false
  | _ => true

/-- Lines 150-159 composed: the exact text handed to `json.loads` — the
stripped response, defenced, replaced by the first flat brace pair when one
exists. `none` models the fence `IndexError`. -/
def candidateOfL (cs : List Char) : Option (List Char) :=
  match stripFenceL (stripList cs) with
  | none => none
  | some t =>
    match findFlat t with
    | some m => some m
    | none => some t

/-- Lines 161-163: if the parsed `Amount` is a string, strip commas and
dollar signs and convert with `float()`; a conversion failure raises
(`ValueError`), any non-string value is left untouched. -/
def coerce_amount (fields : Obj) : Except PageError Obj :=
  match lookupField fields "Amount" with
  | some (JVal.str s) =>
    match pyFloat? (stripCommasDollars s) with
    | some q => .ok (setField fields "Amount" (JVal.num q))
    | none => .error .malformedAmount
  | _ => .ok fields

/-- Lines 150-164 applied to a response text: fence cleanup, flat-brace
extraction, `json.loads`, `data.get("Amount")` (an `AttributeError` when the
parsed value is not an object), and the amount coercion. -/
def parse_response_text (raw : String) : Except PageError Obj :=
  match candidateOfL raw.toList with
  | none => .error .malformedFence
  | some t =>
    match jsonLoadsL t with
    | none => .error .malformedJson
    | some (JVal.obj fields) => coerce_amount fields
    | some _ => .error .malformedNotObject

/-- `parse_check` (lines 130-164): the inference call is abstracted as a
function `svc` from the page's `(img_b64, media_type)` to either a raised
exception or a response text. -/
def parse_check (svc : String × String → Except Unit String)
    (img_b64 media_type : String) : Except PageError Obj :=
  match svc (img_b64, media_type) with
  | .error _ => .error .serviceError
  | .ok raw => parse_response_text raw

/-! ## The batch loop (lines 252-261) and uploads (lines 114-127) -/

/-- The module-level loop body, carrying the current `enumerate` index:
successes are appended to `checks`, a failure is surfaced by
`st.error(f"Error parsing check (idx + 1): ...")` — modelled as the list of
`(idx + 1, error)` pairs — and the loop continues. -/
def runBatchAux (svc : String × String → Except Unit String) :
    Nat → List (String × String) → List Obj × List (Nat × PageError)
  | _, [] => ([], [])
  | idx, p :: rest =>
    let r := runBatchAux svc (idx + 1) rest
    match parse_check svc p.1 p.2 with
    | .ok d => (d :: r.1, r.2)
    | .error e => (r.1, (idx + 1, e) :: r.2)

/-- Lines 252-261: parse every page in order; the first component is the
`checks` list of successfully parsed records, the second the reported
per-page errors with their 1-based page numbers. -/
def run_batch (images : List (String × String))
    (svc : String × String → Except Unit String) :
    List Obj × List (Nat × PageError) :=
  runBatchAux svc 0 images

/-- One uploaded file. A PDF carries the rasterizer's outcome
(`none` models `convert_from_bytes` raising on a corrupt document, the page
images are represented by their final base64 encodings); a non-PDF carries
the decode attempt of `bytes_to_base64` (`none` models `Image.open`
raising, in which case the raw bytes are submitted with the declared MIME
type). -/
inductive Upload where
  | pdf (pages : Option (List String))
  | img (decoded : Option String) (rawB64 : String) (declaredMime : String)

/-- The per-file branch of lines 117-126. -/
def pagesOf : Upload → Except Unit (List (String × String))
  | .pdf none => .error ()
  | .pdf (some ps) => .ok (ps.map (fun p => (p, "image/png")))
  | .img (some d) _ _ => .ok [(d, "image/png")]
  | .img none raw mime => .ok [(raw, mime)]

/-- `get_images_from_uploads` (lines 114-127): pages of all files in order;
an exception from any file propagates and discards the whole batch, since
the call site at line 248 has no handler. -/
def get_images_from_uploads : List Upload → Except Unit (List (String × String))
  | [] => .ok []
  | f :: rest =>
    match pagesOf f with
    | .error e => .error e
    | .ok imgs =>
      match get_images_from_uploads rest with
      | .error e => .error e
      | .ok more => .ok (imgs ++ more)

/-- The processing block at lines 247-261: decompose, then run the batch
loop. An exception from decomposition aborts the whole run. -/
def process (files : List Upload) (svc : String × String → Except Unit String) :
    Except Unit (List Obj × List (Nat × PageError)) :=
  match get_images_from_uploads files with
  | .error e => .error e
  | .ok images => .ok (run_batch images svc)

/-! ## Report generation (lines 167-239, 265-269) -/

/-- Round a rational to the nearest integer, ties to even — the rounding
Python's fixed-point float formatting performs (the further rounding already
applied by the binary double representation never moves a value whose cents
are exact, which is the regime of every statement below). Computed on the
reduced numerator and denominator so it evaluates by kernel reduction. -/
def roundHalfEven (x : ℚ) : ℤ :=
  let n := x.num
  let d : ℤ := (x.den : ℤ)
  let f := Int.fdiv n d
  let r := n - f * d
  if 2 * r < d then f
  else if d < 2 * r then f + 1
  else if f % 2 = 0 then f else f + 1

/-- Python `f"(x):.2f"`: the amount rendered with exactly two decimals. -/
def fmt2 (q : ℚ) : String :=
  let cents := roundHalfEven (mkRat (q.num * 100) q.den)
  let sgn := if cents < 0 then "-" else ""
  let a := cents.natAbs
  sgn ++ toString (a / 100) ++ "." ++
    (if a % 100 < 10 then "0" ++ toString (a % 100) else toString (a % 100))

/-- Rational addition written with `mkRat` so that it evaluates by kernel
reduction; `addQ_eq_add` below shows it is ordinary addition on `ℚ`. -/
def addQ (a b : ℚ) : ℚ :=
  mkRat (a.num * (b.den : ℤ) + b.num * (a.den : ℤ)) (a.den * b.den)

/-- `ck.get(k, "")` as written to a CSV cell: a missing key gives the empty
string, `None` is written as the empty string by `csv.writer`, a string is
written as itself. A number, boolean, list or dict would be stringified by
Python's `str()`, which is outside the modelled domain (`none`). -/
def csvStrCell (ck : Obj) (k : String) : Option String :=
  match lookupField ck k with
  | none => some ""
  | some (JVal.str s) => some s
  | some JVal.null => some ""
  | some _ => none

/-- `ck.get("Amount", 0)` as a number: missing gives `0`; a Python bool is
an int (`True` counts as 1); a string, `None`, list or dict would raise in
`f"...:.2f"` and in `sum`, modelled as `none`. -/
def amountQ (ck : Obj) : Option ℚ :=
  match lookupField ck "Amount" with
  | none => some 0
  | some (JVal.num q) => some q
  | some (JVal.bool b) => some (if b then 1 else 0)
  | some _ => none

/-- The CSV header row (line 229). -/
def csvHeader : List String :=
  ["#", "Payer", "Date", "Amount", "Bank", "Check Number", "Account #", "Routing #", "Claim #"]

/-- One CSV data row (lines 230-236): the 1-based counter, the seven string
fields defaulted to the empty string, and the amount formatted to two
decimals. -/
def csvRow (i : Nat) (ck : Obj) : Option (List String) := do
  let p ← csvStrCell ck "Payer"
  let d ← csvStrCell ck "Date"
  let q ← amountQ ck
  let b ← csvStrCell ck "Bank"
  let cn ← csvStrCell ck "Check_Number"
  let ac ← csvStrCell ck "Account"
  let ro ← csvStrCell ck "Routing"
  let cl ← csvStrCell ck "Claim"
  pure [toString i, p, d, fmt2 q, b, cn, ac, ro, cl]

/-- The data rows, numbering from `i`. -/
def rowsAux : Nat → List Obj → Option (List (List String))
  | _, [] => some []
  | i, ck :: rest => do
    let r ← csvRow i ck
    let rs ← rowsAux (i + 1) rest
    pure (r :: rs)

/-- Line 237 and line 268: `sum(c.get("Amount", 0) for c in checks)`. -/
def sum_amounts : List Obj → Option ℚ
  | [] => some 0
  | ck :: rest => do
    let q ← amountQ ck
    let s ← sum_amounts rest
    pure (addQ q s)

/-- Line 268: the total shown by `st.metric`, computed directly from the
record list each time the results block runs. -/
def display_total (checks : List Obj) : Option ℚ := sum_amounts checks

/-- `generate_csv` (lines 225-239): header row, one row per record, and the
trailing total row with "TOTAL" in the date column and the freshly computed
sum formatted to two decimals in the amount column. -/
def generate_csv (checks : List Obj) : Option (List (List String)) := do
  let rows ← rowsAux 1 checks
  let total ← sum_amounts checks
  pure (csvHeader :: rows ++ [["", "", "TOTAL", fmt2 total, "", "", "", "", ""]])

/-- A worksheet cell value as `generate_xlsx` produces it. -/
inductive XCell where
  | s (v : String)
  | n (q : ℚ)
  | b (v : Bool)
  | empty
  | formula (f : String)

/-- An openpyxl cell assignment: `None` leaves the cell empty, strings and
numbers (bools included) are stored, a list or dict raises `ValueError`. -/
def xlsxCell : JVal → Option XCell
  | .str s => some (.s s)
  | .num q => some (.n q)
  | .bool v => some (.b v)
  | .null => some .empty
  | _ => none

/-- `ck.get(k, "")` placed in a worksheet cell. -/
def xlsxStrCell (ck : Obj) (k : String) : Option XCell :=
  match lookupField ck k with
  | none => some (XCell.s "")
  | some v => xlsxCell v

/-- `ck.get("Amount", 0)` placed in a worksheet cell. -/
def xlsxAmtCell (ck : Obj) : Option XCell :=
  match lookupField ck "Amount" with
  | none => some (XCell.n 0)
  | some v => xlsxCell v

/-- One worksheet data row (lines 189-204); styling is presentation only
and not modelled. -/
def xlsxDataRow (i : Nat) (ck : Obj) : Option (List XCell) := do
  let p ← xlsxStrCell ck "Payer"
  let d ← xlsxStrCell ck "Date"
  let q ← xlsxAmtCell ck
  let b ← xlsxStrCell ck "Bank"
  let cn ← xlsxStrCell ck "Check_Number"
  let ac ← xlsxStrCell ck "Account"
  let ro ← xlsxStrCell ck "Routing"
  let cl ← xlsxStrCell ck "Claim"
  pure [XCell.n (mkRat i 1), p, d, q, b, cn, ac, ro, cl]

/-- The worksheet data rows, numbering from `i`. -/
def xlsxRowsAux : Nat → List Obj → Option (List (List XCell))
  | _, [] => some []
  | i, ck :: rest => do
    let r ← xlsxDataRow i ck
    let rs ← xlsxRowsAux (i + 1) rest
    pure (r :: rs)

/-- The worksheet header row (lines 173, 184-187). -/
def xlsxHeaderRow : List XCell := csvHeader.map XCell.s

/-- The worksheet total row (lines 206-211): "TOTAL" in column 3 and a
`=SUM(D2:D(n+1))` formula in column 4, every other cell untouched. -/
def xlsxTotalRow (n : Nat) : List XCell :=
  [XCell.empty, XCell.empty, XCell.s "TOTAL",
   XCell.formula ("=SUM(D2:D" ++ toString (n + 1) ++ ")"),
   XCell.empty, XCell.empty, XCell.empty, XCell.empty, XCell.empty]

/-- The cell contents of the workbook `generate_xlsx` builds
(lines 167-222): header, data rows, total row. -/
def generate_xlsx_rows (checks : List Obj) : Option (List (List XCell)) := do
  let rows ← xlsxRowsAux 1 checks
  pure (xlsxHeaderRow :: rows ++ [xlsxTotalRow checks.length])

/-! ## Schema typing and reference shapes used by the theorems -/

/-- The value at `k`, if present, is a string. -/
def strOk (ck : Obj) (k : String) : Bool :=
  match lookupField ck k with
  | none => true
  | some (JVal.str _) => true
  | _ => false

/-- The `Amount` value, if present, is a number. -/
def amtOk (ck : Obj) : Bool :=
  match lookupField ck "Amount" with
  | none => true
  | some (JVal.num _) => true
  | _ => false

/-- Every schema field that is present carries a value of its schema type:
strings for the seven text fields, a number for `Amount`. Keys may be
missing. -/
def schemaTyped (ck : Obj) : Bool :=
  strOk ck "Payer" && strOk ck "Date" && amtOk ck && strOk ck "Bank" &&
    strOk ck "Check_Number" && strOk ck "Account" && strOk ck "Routing" && strOk ck "Claim"

/-- The string stored at `k`, defaulting to the empty string. -/
def strD (ck : Obj) (k : String) : String :=
  match lookupField ck k with
  | some (JVal.str s) => s
  | _ => ""

/-- The amount stored in a record, defaulting to `0`. -/
def amtD (ck : Obj) : ℚ :=
  match lookupField ck "Amount" with
  | some (JVal.num q) => q
  | _ => 0

/-- The arithmetic sum of the record amounts. -/
def totalD : List Obj → ℚ
  | [] => 0
  | ck :: rest => addQ (amtD ck) (totalD rest)

/-- The CSV data row of a well-typed record, in closed form. -/
def csvRowD (i : Nat) (ck : Obj) : List String :=
  [toString i, strD ck "Payer", strD ck "Date", fmt2 (amtD ck), strD ck "Bank",
   strD ck "Check_Number", strD ck "Account", strD ck "Routing", strD ck "Claim"]

/-- The CSV data rows of well-typed records, in closed form. -/
def dataRowsD : Nat → List Obj → List (List String)
  | _, [] => []
  | i, ck :: rest => csvRowD i ck :: dataRowsD (i + 1) rest

/-- The full CSV of well-typed records, in closed form. -/
def csvRowsD (checks : List Obj) : List (List String) :=
  csvHeader :: dataRowsD 1 checks ++
    [["", "", "TOTAL", fmt2 (totalD checks), "", "", "", "", ""]]

/-- The worksheet cell of a present field value, in closed form (only
meaningful for schema-typed values). -/
def xCellD (ck : Obj) (k : String) : XCell :=
  match lookupField ck k with
  | none => XCell.s ""
  | some (JVal.str s) => XCell.s s
  | some (JVal.num q) => XCell.n q
  | some (JVal.bool v) => XCell.b v
  | some JVal.null => XCell.empty
  | some _ => XCell.s ""

/-- The worksheet amount cell, in closed form. -/
def xAmtD (ck : Obj) : XCell :=
  match lookupField ck "Amount" with
  | none => XCell.n 0
  | some (JVal.num q) => XCell.n q
  | some (JVal.str s) => XCell.s s
  | some (JVal.bool v) => XCell.b v
  | some JVal.null => XCell.empty
  | some _ => XCell.n 0

/-- The worksheet data row of a well-typed record, in closed form. -/
def xlsxRowD (i : Nat) (ck : Obj) : List XCell :=
  [XCell.n (mkRat i 1), xCellD ck "Payer", xCellD ck "Date", xAmtD ck, xCellD ck "Bank",
   xCellD ck "Check_Number", xCellD ck "Account", xCellD ck "Routing", xCellD ck "Claim"]

/-- Characters that are not braces. -/
def noBraces (cs : List Char) : Bool :=
  cs.all (fun c => !(c == '{' || c == '}'))

/-- `Except.ok`-ness as a boolean. -/
def exceptOk {ε α : Type} : Except ε α → Bool
  | .ok _ => true
  | .error _ => false

/-- A file whose decomposition raises. -/
def pagesFail (f : Upload) : Bool :=
  match pagesOf f with
  | .error _ => true
  | .ok _ => false

/-- Is the optional value a JSON string? -/
def optIsStr : Option JVal → Bool
  | some (JVal.str _) => true
  | _ => false

/-- The worksheet data rows of well-typed records, in closed form. -/
def xlsxDataRowsD : Nat → List Obj → List (List XCell)
  | _, [] => []
  | i, ck :: rest => xlsxRowD i ck :: xlsxDataRowsD (i + 1) rest

/-! ## Concrete instances used by witnesses and counterexamples -/

/-- A three-page batch. -/
def pages3 : List (String × String) :=
  [("p1", "image/png"), ("p2", "image/png"), ("p3", "image/png")]

/-- A service whose response for page 2 is unparsable text and whose other
responses are valid JSON objects. -/
def svc3 : String × String → Except Unit String := fun p =>
  if p.1 == "p2" then Except.ok "oops"
  else if p.1 == "p1" then Except.ok "\x7b\"Amount\": 1\x7d"
  else Except.ok "\x7b\"Amount\": 2\x7d"

/-- A two-document batch whose first document is a corrupt PDF and whose
second document is a healthy single image. -/
def files2 : List Upload :=
  [Upload.pdf none, Upload.img (some "i") "r" "image/png"]

/-- Two schema-typed records, the second with a missing `Date` and a
missing `Amount`. -/
def checks2 : List Obj :=
  [[("Payer", JVal.str "Acme"), ("Date", JVal.str "01/02/2025"),
    ("Amount", JVal.num (mkRat 1025 100))],
   [("Payer", JVal.str "B")]]

/-- A response whose `Amount` comes back as a currency-formatted string. -/
def c4raw : String := "\x7b\"Amount\": \"$1,204.50\"\x7d"

/-- A response whose `Amount` comes back as JSON `null`. -/
def c5raw : String := "\x7b\"Amount\": null\x7d"

/-- A response carrying only one of the eight schema fields. -/
def c6raw : String := "\x7b\"Payer\": \"X\"\x7d"

/-- A response whose JSON object is nested and surrounded by commentary. -/
def c7raw : String := "see \x7b\"Amount\": \x7b\"v\": 1\x7d\x7d done"

/-! ## Helper lemmas -/

theorem addQ_eq_add (a b : ℚ) : addQ a b = a + b := by
  have ha : ((a.den : ℚ)) ≠ 0 := Nat.cast_ne_zero.mpr a.den_nz
  have hb : ((b.den : ℚ)) ≠ 0 := Nat.cast_ne_zero.mpr b.den_nz
  rw [addQ, Rat.mkRat_eq_div]
  conv_rhs => rw [← Rat.num_div_den a, ← Rat.num_div_den b]
  rw [div_add_div _ _ ha hb]
  push_cast
  ring_nf

theorem runBatchAux_length (svc : String × String → Except Unit String) :
    ∀ (images : List (String × String)) (n : Nat),
      (runBatchAux svc n images).1.length + (runBatchAux svc n images).2.length =
        images.length := by
  intro images
  induction images with
  | nil => intro n; simp [runBatchAux]
  | cons p rest ih =>
    intro n
    simp only [runBatchAux]
    cases parse_check svc p.1 p.2 with
    | ok d =>
      have := ih (n + 1)
      simp only [List.length_cons]
      omega
    | error e =>
      have := ih (n + 1)
      simp only [List.length_cons]
      omega

theorem runBatchAux_oks (svc : String × String → Except Unit String) :
    ∀ (images : List (String × String)) (n : Nat),
      (runBatchAux svc n images).1 =
        images.filterMap (fun p => (parse_check svc p.1 p.2).toOption) := by
  intro images
  induction images with
  | nil => intro n; simp [runBatchAux]
  | cons p rest ih =>
    intro n
    simp only [runBatchAux, List.filterMap_cons]
    cases parse_check svc p.1 p.2 with
    | ok d => simp [Except.toOption, ih (n + 1)]
    | error e => simp [Except.toOption, ih (n + 1)]

theorem runBatchAux_err_mem (svc : String × String → Except Unit String) :
    ∀ (images : List (String × String)) (n i : Nat) (p : String × String)
      (e : PageError), images.get? i = some p → parse_check svc p.1 p.2 = .error e →
      (n + i + 1, e) ∈ (runBatchAux svc n images).2 := by
  intro images
  induction images with
  | nil => intro n i p e hp; simp at hp
  | cons q rest ih =>
    intro n i p e hp he
    cases i with
    | zero =>
      simp only [List.get?] at hp
      cases hp
      simp only [runBatchAux, he]
      exact List.mem_cons_self _ _
    | succ j =>
      simp only [List.get?] at hp
      have := ih (n + 1) j p e hp he
      have harith : n + 1 + j + 1 = n + (j + 1) + 1 := by omega
      rw [harith] at this
      simp only [runBatchAux]
      cases hpc : parse_check svc q.1 q.2 with
      | ok d => simpa using this
      | error e2 => exact List.mem_cons_of_mem _ this

theorem runBatchAux_append (svc : String × String → Except Unit String) :
    ∀ (xs ys : List (String × String)) (n : Nat),
      runBatchAux svc n (xs ++ ys) =
        ((runBatchAux svc n xs).1 ++ (runBatchAux svc (n + xs.length) ys).1,
         (runBatchAux svc n xs).2 ++ (runBatchAux svc (n + xs.length) ys).2) := by
  intro xs
  induction xs with
  | nil => intro ys n; simp [runBatchAux]
  | cons p rest ih =>
    intro ys n
    have harith : n + 1 + rest.length = n + (rest.length + 1) := by omega
    cases hpc : parse_check svc p.1 p.2 with
    | ok d =>
      simp only [List.cons_append, runBatchAux, hpc, List.append_eq, List.length_cons]
      rw [ih ys (n + 1), harith]
    | error e =>
      simp only [List.cons_append, runBatchAux, hpc, List.append_eq, List.length_cons]
      rw [ih ys (n + 1), harith]

theorem map_shift_shift (l : List (Nat × PageError)) (a b : Nat) :
    (l.map (fun pe => (pe.1 + a, pe.2))).map (fun pe => (pe.1 + b, pe.2)) =
      l.map (fun pe => (pe.1 + (a + b), pe.2)) := by
  induction l with
  | nil => rfl
  | cons x xs ih => simp [ih, Nat.add_assoc]

theorem runBatchAux_shift (svc : String × String → Except Unit String) :
    ∀ (ys : List (String × String)) (n : Nat),
      runBatchAux svc n ys =
        ((runBatchAux svc 0 ys).1,
         (runBatchAux svc 0 ys).2.map (fun pe => (pe.1 + n, pe.2))) := by
  intro ys
  induction ys with
  | nil => intro n; simp [runBatchAux]
  | cons p rest ih =>
    intro n
    simp only [runBatchAux]
    rw [ih (n + 1), ih 1]
    cases parse_check svc p.1 p.2 with
    | ok d =>
      simp only [map_shift_shift]
      rw [Nat.add_comm 1 n]
    | error e =>
      simp only [List.map_cons, map_shift_shift]
      rw [Nat.add_comm 1 n]

theorem get_images_fail : ∀ (files : List Upload), files.any pagesFail = true →
    get_images_from_uploads files = Except.error () := by
  intro files
  induction files with
  | nil => intro h; simp at h
  | cons f rest ih =>
    intro h
    simp only [List.any_cons, Bool.or_eq_true] at h
    simp only [get_images_from_uploads]
    cases hf : pagesOf f with
    | error e => cases e; rfl
    | ok imgs =>
      cases h with
      | inl h1 => simp [pagesFail, hf] at h1
      | inr h2 => rw [ih h2]

theorem get_images_ok : ∀ (files : List Upload),
    files.all (fun f => !pagesFail f) = true →
    exceptOk (get_images_from_uploads files) = true := by
  intro files
  induction files with
  | nil => intro h; rfl
  | cons f rest ih =>
    intro h
    simp only [List.all_cons, Bool.and_eq_true] at h
    obtain ⟨h1, h2⟩ := h
    simp only [get_images_from_uploads]
    cases hf : pagesOf f with
    | error e => simp [pagesFail, hf] at h1
    | ok imgs =>
      have hr := ih h2
      cases hg : get_images_from_uploads rest with
      | error e2 => rw [hg] at hr; simp [exceptOk] at hr
      | ok more => rfl

theorem setField_keys (fields : Obj) (k : String) (v : JVal) :
    (setField fields k v).map Prod.fst = fields.map Prod.fst := by
  induction fields with
  | nil => rfl
  | cons p rest ih =>
    simp only [setField, List.map_cons] at ih ⊢
    cases h : p.1 == k with
    | true =>
      have hk : p.1 = k := by simpa using h
      subst hk
      exact congrArg _ ih
    | false => exact congrArg _ ih

theorem schemaTyped_spec (ck : Obj) (h : schemaTyped ck = true) :
    strOk ck "Payer" = true ∧ strOk ck "Date" = true ∧ amtOk ck = true ∧
    strOk ck "Bank" = true ∧ strOk ck "Check_Number" = true ∧
    strOk ck "Account" = true ∧ strOk ck "Routing" = true ∧ strOk ck "Claim" = true := by
  simp only [schemaTyped, Bool.and_eq_true] at h
  tauto

theorem csvStrCell_typed (ck : Obj) (k : String) (h : strOk ck k = true) :
    csvStrCell ck k = some (strD ck k) := by
  cases hl : lookupField ck k with
  | none => simp [csvStrCell, strD, hl]
  | some v => cases v <;> simp [csvStrCell, strD, strOk, hl] at h ⊢

theorem amountQ_typed (ck : Obj) (h : amtOk ck = true) :
    amountQ ck = some (amtD ck) := by
  cases hl : lookupField ck "Amount" with
  | none => simp [amountQ, amtD, hl]
  | some v => cases v <;> simp [amountQ, amtD, amtOk, hl] at h ⊢

theorem csvRow_typed (i : Nat) (ck : Obj) (h : schemaTyped ck = true) :
    csvRow i ck = some (csvRowD i ck) := by
  obtain ⟨h1, h2, h3, h4, h5, h6, h7, h8⟩ := schemaTyped_spec ck h
  simp [csvRow, csvRowD, csvStrCell_typed ck "Payer" h1, csvStrCell_typed ck "Date" h2,
    amountQ_typed ck h3, csvStrCell_typed ck "Bank" h4,
    csvStrCell_typed ck "Check_Number" h5, csvStrCell_typed ck "Account" h6,
    csvStrCell_typed ck "Routing" h7, csvStrCell_typed ck "Claim" h8]

theorem rowsAux_typed : ∀ (checks : List Obj) (n : Nat),
    checks.all schemaTyped = true → rowsAux n checks = some (dataRowsD n checks) := by
  intro checks
  induction checks with
  | nil => intro n h; rfl
  | cons ck rest ih =>
    intro n h
    simp only [List.all_cons, Bool.and_eq_true] at h
    simp [rowsAux, dataRowsD, csvRow_typed n ck h.1, ih (n + 1) h.2]

theorem sum_amounts_typed : ∀ (checks : List Obj),
    checks.all schemaTyped = true → sum_amounts checks = some (totalD checks) := by
  intro checks
  induction checks with
  | nil => intro h; rfl
  | cons ck rest ih =>
    intro h
    simp only [List.all_cons, Bool.and_eq_true] at h
    have h3 := (schemaTyped_spec ck h.1).2.2.1
    simp [sum_amounts, totalD, amountQ_typed ck h3, ih h.2]

theorem generate_csv_typed (checks : List Obj) (h : checks.all schemaTyped = true) :
    generate_csv checks = some (csvRowsD checks) := by
  simp [generate_csv, csvRowsD, rowsAux_typed checks 1 h, sum_amounts_typed checks h]

theorem dataRowsD_length : ∀ (checks : List Obj) (n : Nat),
    (dataRowsD n checks).length = checks.length := by
  intro checks
  induction checks with
  | nil => intro n; rfl
  | cons ck rest ih => intro n; simp [dataRowsD, ih (n + 1)]

theorem csvRowsD_length (checks : List Obj) :
    (csvRowsD checks).length = checks.length + 2 := by
  simp [csvRowsD, dataRowsD_length]

theorem getLast?_cons_concat {α : Type} (a x : α) (l : List α) :
    (a :: (l ++ [x])).getLast? = some x := by
  rw [show a :: (l ++ [x]) = (a :: l) ++ [x] from rfl]
  exact List.getLast?_concat _

theorem csvRowsD_getLast (checks : List Obj) :
    (csvRowsD checks).getLast? =
      some ["", "", "TOTAL", fmt2 (totalD checks), "", "", "", "", ""] := by
  rw [csvRowsD]
  exact getLast?_cons_concat _ _ _

theorem xlsxStrCell_typed (ck : Obj) (k : String) (h : strOk ck k = true) :
    xlsxStrCell ck k = some (xCellD ck k) := by
  cases hl : lookupField ck k with
  | none => simp [xlsxStrCell, xCellD, hl]
  | some v => cases v <;> simp [xlsxStrCell, xlsxCell, xCellD, strOk, hl] at h ⊢

theorem xlsxAmtCell_typed (ck : Obj) (h : amtOk ck = true) :
    xlsxAmtCell ck = some (xAmtD ck) := by
  cases hl : lookupField ck "Amount" with
  | none => simp [xlsxAmtCell, xAmtD, hl]
  | some v => cases v <;> simp [xlsxAmtCell, xlsxCell, xAmtD, amtOk, hl] at h ⊢

theorem xlsxDataRow_typed (i : Nat) (ck : Obj) (h : schemaTyped ck = true) :
    xlsxDataRow i ck = some (xlsxRowD i ck) := by
  obtain ⟨h1, h2, h3, h4, h5, h6, h7, h8⟩ := schemaTyped_spec ck h
  simp [xlsxDataRow, xlsxRowD, xlsxStrCell_typed ck "Payer" h1,
    xlsxStrCell_typed ck "Date" h2, xlsxAmtCell_typed ck h3,
    xlsxStrCell_typed ck "Bank" h4, xlsxStrCell_typed ck "Check_Number" h5,
    xlsxStrCell_typed ck "Account" h6, xlsxStrCell_typed ck "Routing" h7,
    xlsxStrCell_typed ck "Claim" h8]

theorem xlsxRowsAux_typed : ∀ (checks : List Obj) (n : Nat),
    checks.all schemaTyped = true →
    xlsxRowsAux n checks = some (xlsxDataRowsD n checks) := by
  intro checks
  induction checks with
  | nil => intro n h; rfl
  | cons ck rest ih =>
    intro n h
    simp only [List.all_cons, Bool.and_eq_true] at h
    simp [xlsxRowsAux, xlsxDataRowsD, xlsxDataRow_typed n ck h.1, ih (n + 1) h.2]

theorem generate_xlsx_rows_typed (checks : List Obj)
    (h : checks.all schemaTyped = true) :
    generate_xlsx_rows checks =
      some (xlsxHeaderRow :: xlsxDataRowsD 1 checks ++ [xlsxTotalRow checks.length]) := by
  simp [generate_xlsx_rows, xlsxRowsAux_typed checks 1 h]

theorem toBrace_flat : ∀ (mid post : List Char), noBraces mid = true →
    toBrace (mid ++ '}' :: post) = some mid := by
  intro mid
  induction mid with
  | nil => intro post h; simp [toBrace]
  | cons c rest ih =>
    intro post h
    simp only [noBraces, List.all_cons, Bool.and_eq_true] at h
    obtain ⟨h1, h2⟩ := h
    have hb1 : (c == '{') = false := by revert h1; cases c == '{' <;> simp
    have hb2 : (c == '}') = false := by revert h1; cases c == '}' <;> simp
    have h2' : noBraces rest = true := h2
    simp [toBrace, hb1, hb2, ih post h2']

theorem findFlat_skip : ∀ (pre rest : List Char), noBraces pre = true →
    findFlat (pre ++ rest) = findFlat rest := by
  intro pre
  induction pre with
  | nil => intro rest h; rfl
  | cons c cs ih =>
    intro rest h
    simp only [noBraces, List.all_cons, Bool.and_eq_true] at h
    obtain ⟨h1, h2⟩ := h
    have hb1 : (c == '{') = false := by revert h1; cases c == '{' <;> simp
    have h2' : noBraces cs = true := h2
    simp [findFlat, hb1, ih rest h2']

/-! ## Claim theorems -/

/-- C1, counterexample: for the three-page batch whose second response is
unparsable text, the record list returned by the batch loop has only 2
entries, not one per page; the page-2 failure lives on the error channel,
and the report renumbers page 3's record as row 2 — no entry sits at its
original 1-based index. -/
theorem c1_batch_drops_failed_pages :
    (run_batch pages3 svc3).1.length = 2 ∧
    (run_batch pages3 svc3).2 = [(2, PageError.malformedJson)] ∧
    generate_csv (run_batch pages3 svc3).1 =
      some [csvHeader,
            ["1", "", "", "1.00", "", "", "", "", ""],
            ["2", "", "", "2.00", "", "", "", "", ""],
            ["", "", "TOTAL", "3.00", "", "", "", "", ""]] :=
  ⟨rfl, rfl, rfl⟩

/-- C1, amended: the batch loop returns only the successful records, in
input order and consecutively renumbered, while each failure is reported on
the error channel with its original 1-based page index; successes and
reported failures together account for exactly the N pages. -/
theorem c1_batch_partition (images : List (String × String))
    (svc : String × String → Except Unit String) :
    (run_batch images svc).1.length + (run_batch images svc).2.length =
      images.length ∧
    (run_batch images svc).1 =
      images.filterMap (fun p => (parse_check svc p.1 p.2).toOption) ∧
    (∀ (i : Nat) (p : String × String) (e : PageError), images.get? i = some p →
      parse_check svc p.1 p.2 = Except.error e →
      (i + 1, e) ∈ (run_batch images svc).2) := by
  refine ⟨runBatchAux_length svc images 0, runBatchAux_oks svc images 0, ?_⟩
  intro i p e hp he
  have := runBatchAux_err_mem svc images 0 i p e hp he
  simpa using this

/-- C1, witness for the amended theorem at the three-page batch. -/
theorem c1_batch_partition_witness :
    (run_batch pages3 svc3).1.length + (run_batch pages3 svc3).2.length =
      pages3.length ∧
    (2, PageError.malformedJson) ∈ (run_batch pages3 svc3).2 :=
  ⟨(c1_batch_partition pages3 svc3).1,
   (c1_batch_partition pages3 svc3).2.2 1 ("p2", "image/png")
     PageError.malformedJson rfl rfl⟩

/-- C2: a page-level extraction failure of any kind is recorded at that
page's 1-based index and the loop continues — the pages after any prefix
are processed exactly as they would be alone, so no page error aborts the
batch or blocks later pages. -/
theorem c2_failure_never_aborts_batch (xs ys : List (String × String))
    (svc : String × String → Except Unit String) :
    run_batch (xs ++ ys) svc =
      ((run_batch xs svc).1 ++ (run_batch ys svc).1,
       (run_batch xs svc).2 ++
         (run_batch ys svc).2.map (fun pe => (pe.1 + xs.length, pe.2))) ∧
    (∀ (i : Nat) (p : String × String) (e : PageError),
      (xs ++ ys).get? i = some p → parse_check svc p.1 p.2 = Except.error e →
      (i + 1, e) ∈ (run_batch (xs ++ ys) svc).2) := by
  constructor
  · have h := runBatchAux_append svc xs ys 0
    rw [Nat.zero_add] at h
    rw [run_batch, h, runBatchAux_shift svc ys xs.length]
    rfl
  · intro i p e hp he
    have := runBatchAux_err_mem svc (xs ++ ys) 0 i p e hp he
    simpa using this

/-- C2, witness: a failing first page followed by a succeeding page; the
failure is recorded at index 1 and the second page's record is produced. -/
theorem c2_failure_never_aborts_batch_witness :
    run_batch [("p2", "image/png"), ("p1", "image/png")] svc3 =
      ([[("Amount", JVal.num (mkRat 1 1))]], [(1, PageError.malformedJson)]) ∧
    (1, PageError.malformedJson) ∈
      (run_batch [("p2", "image/png"), ("p1", "image/png")] svc3).2 :=
  ⟨rfl,
   (c2_failure_never_aborts_batch [("p2", "image/png")] [("p1", "image/png")]
     svc3).2 0 ("p2", "image/png") PageError.malformedJson rfl rfl⟩

/-- C3, counterexample: with a corrupt PDF as the first document and a
healthy image as the second, decomposition raises and the whole processing
block aborts — the second document's page is never processed and no batch
result exists at all, contradicting "fatal only for that document". -/
theorem c3_decomposition_aborts_whole_batch :
    get_images_from_uploads files2 = Except.error () ∧
    process files2 svc3 = Except.error () :=
  ⟨rfl, rfl⟩

/-- C3, amended: a document that cannot be decomposed (a corrupt PDF) is
fatal for the entire batch, because `get_images_from_uploads` propagates
the exception and its caller has no handler; when every document
decomposes (an undecodable image merely falls back to raw-bytes
submission), decomposition succeeds. -/
theorem c3_decomposition_failure_fatal (files : List Upload) :
    (files.any pagesFail = true →
      get_images_from_uploads files = Except.error ()) ∧
    (files.all (fun f => !pagesFail f) = true →
      exceptOk (get_images_from_uploads files) = true) :=
  ⟨get_images_fail files, get_images_ok files⟩

/-- C3, witness for the amended theorem. -/
theorem c3_decomposition_failure_fatal_witness :
    get_images_from_uploads files2 = Except.error () ∧
    exceptOk (get_images_from_uploads [Upload.img none "r" "image/png"]) = true :=
  ⟨(c3_decomposition_failure_fatal files2).1 rfl,
   (c3_decomposition_failure_fatal [Upload.img none "r" "image/png"]).2 rfl⟩

/-- C4: when the parsed `Amount` field is a string, `parse_check` strips
commas and dollar signs, converts the rest with `float()`, and stores the
number; when the stripped string is not a valid number the page fails with
the amount-coercion error (a `MalformedResponseError`). -/
theorem c4_string_amount_coercion (raw : String) (t : List Char) (fields : Obj)
    (s : String) (h1 : candidateOfL raw.toList = some t)
    (h2 : jsonLoadsL t = some (JVal.obj fields))
    (h3 : lookupField fields "Amount" = some (JVal.str s)) :
    parse_response_text raw =
      (match pyFloat? (stripCommasDollars s) with
        | some q => Except.ok (setField fields "Amount" (JVal.num q))
        | none => Except.error PageError.malformedAmount) ∧
    PageError.isMalformedResponse PageError.malformedAmount = true := by
  refine ⟨?_, rfl⟩
  simp only [parse_response_text, h1, h2, coerce_amount, h3]

/-- C4, witness: the response `Amount "$1,204.50"` yields exactly
1204.50. -/
theorem c4_string_amount_coercion_witness :
    parse_response_text c4raw = Except.ok [("Amount", JVal.num (mkRat 2409 2))] := by
  have h := c4_string_amount_coercion c4raw c4raw.toList
    [("Amount", JVal.str "$1,204.50")] "$1,204.50" rfl rfl rfl
  exact h.1.trans rfl

/-- C5, counterexample: a response whose `Amount` is JSON `null` is
returned with a non-numeric amount — only string amounts are coerced, so
the invariant "amount is always numeric" fails. -/
theorem c5_null_amount_not_numeric :
    parse_response_text c5raw = Except.ok [("Amount", JVal.null)] ∧
    JVal.isNum JVal.null = false :=
  ⟨rfl, rfl⟩

/-- C5, amended: the amount is numeric when the service returns it as a
number or as a coercible string; any non-string value (`null`, boolean,
array, object, or a missing field) is passed through unchanged, so the
returned record's amount need not be numeric. -/
theorem c5_amount_unchanged_unless_string (raw : String) (t : List Char)
    (fields : Obj) (h1 : candidateOfL raw.toList = some t)
    (h2 : jsonLoadsL t = some (JVal.obj fields))
    (h3 : optIsStr (lookupField fields "Amount") = false) :
    parse_response_text raw = Except.ok fields := by
  simp only [parse_response_text, h1, h2, coerce_amount]
  cases hl : lookupField fields "Amount" with
  | none => rfl
  | some v => cases v <;> simp [optIsStr, hl] at h3 ⊢

/-- C5, witness for the amended theorem at the `null` amount. -/
theorem c5_amount_unchanged_unless_string_witness :
    parse_response_text c5raw = Except.ok [("Amount", JVal.null)] :=
  c5_amount_unchanged_unless_string c5raw c5raw.toList
    [("Amount", JVal.null)] rfl rfl rfl

/-- C6, counterexample: a response carrying only `Payer` is returned
without the other seven schema fields — nothing is defaulted before the
record is returned. -/
theorem c6_missing_fields_not_defaulted :
    parse_response_text c6raw = Except.ok [("Payer", JVal.str "X")] ∧
    lookupField [("Payer", JVal.str "X")] "Bank" = none ∧
    lookupField [("Payer", JVal.str "X")] "Amount" = none :=
  ⟨rfl, rfl, rfl⟩

/-- C6, amended: `parse_check` returns the parsed object with its key set
unchanged (apart from the amount coercion, which rewrites a value in
place); the empty-string / zero defaults for missing fields are applied at
serialization time, as the fully-empty record's CSV row shows. -/
theorem c6_keys_unchanged_defaults_at_serialization :
    (∀ (raw : String) (t : List Char) (fields out : Obj),
      candidateOfL raw.toList = some t →
      jsonLoadsL t = some (JVal.obj fields) →
      parse_response_text raw = Except.ok out →
      out.map Prod.fst = fields.map Prod.fst) ∧
    csvRow 1 [] = some ["1", "", "", "0.00", "", "", "", "", ""] := by
  refine ⟨?_, rfl⟩
  intro raw t fields out h1 h2 hout
  simp only [parse_response_text, h1, h2, coerce_amount] at hout
  cases hl : lookupField fields "Amount" with
  | none =>
    rw [hl] at hout
    simp only at hout
    cases hout
    rfl
  | some v =>
    rw [hl] at hout
    cases v with
    | str s =>
      simp only at hout
      cases hf : pyFloat? (stripCommasDollars s) with
      | none => rw [hf] at hout; simp at hout
      | some q =>
        rw [hf] at hout
        simp only [Except.ok.injEq] at hout
        rw [← hout]
        exact setField_keys fields "Amount" (JVal.num q)
    | null => simp only at hout; cases hout; rfl
    | bool b => simp only at hout; cases hout; rfl
    | num q => simp only at hout; cases hout; rfl
    | arr xs => simp only at hout; cases hout; rfl
    | obj fs => simp only at hout; cases hout; rfl

/-- C6, witness for the amended theorem. -/
theorem c6_keys_unchanged_witness :
    List.map Prod.fst [("Payer", JVal.str "X")] =
      List.map Prod.fst [("Payer", JVal.str "X")] ∧
    csvRow 1 [] = some ["1", "", "", "0.00", "", "", "", "", ""] :=
  ⟨c6_keys_unchanged_defaults_at_serialization.1 c6raw c6raw.toList
     [("Payer", JVal.str "X")] [("Payer", JVal.str "X")] rfl rfl rfl,
   c6_keys_unchanged_defaults_at_serialization.2⟩

/-- C7, counterexample: on a nested object surrounded by commentary, the
regex extracts the first brace pair with a brace-free interior — the inner
fragment — not the first balanced JSON object the specification describes,
and the parsed record comes from that fragment. -/
theorem c7_flat_extraction_not_balanced :
    findFlat c7raw.toList = some ("\x7b\"v\": 1\x7d").toList ∧
    spec_firstBalanced c7raw.toList =
      some ("\x7b\"Amount\": \x7b\"v\": 1\x7d\x7d").toList ∧
    ("\x7b\"v\": 1\x7d" == "\x7b\"Amount\": \x7b\"v\": 1\x7d\x7d") = false ∧
    parse_response_text c7raw = Except.ok [("v", JVal.num (mkRat 1 1))] :=
  ⟨rfl, rfl, rfl, rfl⟩

/-- C7, amended: after optional fence stripping the extractor takes the
first brace pair with a brace-free interior — which is the first balanced
object whenever that object is flat, commentary around it
notwithstanding — and a candidate that fails to parse as JSON yields a
`MalformedResponseError`-class failure rather than a crash. -/
theorem c7_first_flat_object_extracted (pre mid post : List Char)
    (h1 : noBraces pre = true) (h2 : noBraces mid = true) :
    findFlat (pre ++ '{' :: (mid ++ '}' :: post)) = some ('{' :: (mid ++ ['}'])) ∧
    (∀ (raw : String) (t : List Char), candidateOfL raw.toList = some t →
      jsonLoadsL t = none →
      parse_response_text raw = Except.error PageError.malformedJson) := by
  constructor
  · rw [findFlat_skip pre _ h1]
    simp [findFlat, toBrace_flat mid post h2]
  · intro raw t ha hb
    simp only [parse_response_text, ha, hb]

/-- C7, witness for the amended theorem. -/
theorem c7_first_flat_object_extracted_witness :
    findFlat (("note ").toList ++ '{' :: (("\"a\": 1").toList ++ '}' :: (" end").toList)) =
      some ('{' :: (("\"a\": 1").toList ++ ['}'])) ∧
    parse_response_text "oops" = Except.error PageError.malformedJson :=
  ⟨(c7_first_flat_object_extracted ("note ").toList ("\"a\": 1").toList
      (" end").toList rfl rfl).1,
   (c7_first_flat_object_extracted ("note ").toList ("\"a\": 1").toList
      (" end").toList rfl rfl).2 "oops" ("oops").toList rfl rfl⟩

/-- C8: for N schema-typed records, `generate_csv` produces header, N data
rows (each with the amount formatted to two decimals, per `csvRowD`), and a
trailing total row with "TOTAL" in the date column, the two-decimal
formatted sum of the record amounts in the amount column, and every other
cell empty — N + 2 rows in all. -/
theorem c8_generate_csv_shape (checks : List Obj)
    (h : checks.all schemaTyped = true) :
    generate_csv checks = some (csvRowsD checks) ∧
    (csvRowsD checks).length = checks.length + 2 ∧
    (csvRowsD checks).head? = some csvHeader ∧
    (csvRowsD checks).getLast? =
      some ["", "", "TOTAL", fmt2 (totalD checks), "", "", "", "", ""] :=
  ⟨generate_csv_typed checks h, csvRowsD_length checks, rfl, csvRowsD_getLast checks⟩

/-- C8, witness at a concrete two-record list. -/
theorem c8_generate_csv_shape_witness :
    generate_csv checks2 = some (csvRowsD checks2) ∧
    (csvRowsD checks2).length = checks2.length + 2 ∧
    (csvRowsD checks2).head? = some csvHeader ∧
    (csvRowsD checks2).getLast? =
      some ["", "", "TOTAL", fmt2 (totalD checks2), "", "", "", "", ""] :=
  c8_generate_csv_shape checks2 rfl

/-- C9: the displayed total is computed from the successful records only
(the batch loop's record list), the CSV total row carries the same sum
recomputed fresh from the record list, and an empty record list totals
zero. -/
theorem c9_total_of_successes_only :
    (∀ (images : List (String × String))
      (svc : String × String → Except Unit String),
      display_total ((run_batch images svc).1) =
        sum_amounts (images.filterMap (fun p => (parse_check svc p.1 p.2).toOption))) ∧
    (∀ (checks : List Obj) (rws : List (List String)),
      generate_csv checks = some rws →
      rws.getLast? =
        some ["", "", "TOTAL", fmt2 ((sum_amounts checks).getD 0), "", "", "", "", ""]) ∧
    display_total [] = some 0 := by
  refine ⟨?_, ?_, rfl⟩
  · intro images svc
    rw [display_total, run_batch, runBatchAux_oks svc images 0]
  · intro checks rws hg
    cases hr : rowsAux 1 checks with
    | none => simp [generate_csv, hr] at hg
    | some rows =>
      cases hs : sum_amounts checks with
      | none => simp [generate_csv, hr, hs] at hg
      | some total =>
        simp only [generate_csv, hr, hs, Option.bind_eq_bind, Option.some_bind,
          Option.pure_def, Option.some.injEq] at hg
        rw [← hg]
        simp only [Option.getD_some]
        exact getLast?_cons_concat _ _ _

/-- C9, witness at the three-page batch and the two-record list. -/
theorem c9_total_of_successes_only_witness :
    display_total ((run_batch pages3 svc3).1) =
      sum_amounts (pages3.filterMap (fun p => (parse_check svc3 p.1 p.2).toOption)) ∧
    (csvRowsD checks2).getLast? =
      some ["", "", "TOTAL", fmt2 ((sum_amounts checks2).getD 0), "", "", "", "", ""] ∧
    display_total [] = some 0 :=
  ⟨c9_total_of_successes_only.1 pages3 svc3,
   c9_total_of_successes_only.2.1 checks2 (csvRowsD checks2) rfl,
   c9_total_of_successes_only.2.2⟩

/-- C10: both report writers are total over records that lack schema keys:
a well-typed record's rows exist, a missing string field serializes as the
empty string, a missing amount serializes as zero, and whole record lists
of such records serialize successfully — the defaults live in the
serializers, not the extractor. -/
theorem c10_serializers_default_missing_fields (i : Nat) (ck : Obj)
    (h : schemaTyped ck = true) :
    csvRow i ck = some (csvRowD i ck) ∧
    xlsxDataRow i ck = some (xlsxRowD i ck) ∧
    (∀ k, lookupField ck k = none → strD ck k = "") ∧
    (lookupField ck "Amount" = none → amtD ck = 0 ∧ xAmtD ck = XCell.n 0) ∧
    (∀ (checks : List Obj), checks.all schemaTyped = true →
      (generate_csv checks).isSome = true ∧
      (generate_xlsx_rows checks).isSome = true) := by
  refine ⟨csvRow_typed i ck h, xlsxDataRow_typed i ck h, ?_, ?_, ?_⟩
  · intro k hk
    simp [strD, hk]
  · intro hk
    constructor
    · simp [amtD, hk]
    · simp [xAmtD, hk]
  · intro checks hc
    constructor
    · rw [generate_csv_typed checks hc]; rfl
    · rw [generate_xlsx_rows_typed checks hc]; rfl

/-- C10, witness at the record with every schema key missing. -/
theorem c10_serializers_default_missing_fields_witness :
    csvRow 1 [] = some (csvRowD 1 []) ∧
    xlsxDataRow 1 [] = some (xlsxRowD 1 []) ∧
    strD [] "Bank" = "" ∧
    amtD [] = 0 ∧
    xAmtD [] = XCell.n 0 ∧
    (generate_csv [[]]).isSome = true ∧
    (generate_xlsx_rows [[]]).isSome = true :=
  ⟨(c10_serializers_default_missing_fields 1 [] rfl).1,
   (c10_serializers_default_missing_fields 1 [] rfl).2.1,
   (c10_serializers_default_missing_fields 1 [] rfl).2.2.1 "Bank" rfl,
   ((c10_serializers_default_missing_fields 1 [] rfl).2.2.2.1 rfl).1,
   ((c10_serializers_default_missing_fields 1 [] rfl).2.2.2.1 rfl).2,
   ((c10_serializers_default_missing_fields 1 [] rfl).2.2.2.2 [[]] rfl).1,
   ((c10_serializers_default_missing_fields 1 [] rfl).2.2.2.2 [[]] rfl).2⟩

end CheckParser

